import Mathlib

/-!
Verification of the `async_pcloud` client library.

Shallow embedding of `src/async_pcloud/api.py` (class `PyCloudAsync`): the
connection lifecycle, the shared request pipeline `_do_request`, and the thin
operations built on it.  The HTTP exchange itself is modelled by passing the
remote JSON response as an explicit argument; everything on the client side of
the wire is translated line by line from the Python source.
-/

set_option autoImplicit false

namespace AsyncPCloud

/-- JSON values, as far as the library inspects them. -/
inductive JVal where
  | null
  | bool (b : Bool)
  | num (n : Int)
  | str (s : String)
  | arr (xs : List JVal)

/-- A JSON object / Python dict: an association list with unique keys
(insertion-ordered, as Python dicts are). -/
abbrev JObj := List (String × JVal)

/-- The failure conditions of the library (in the source every one of them is
an `Exception`/`ValueError` raise site; the spec names them as a taxonomy). -/
inductive PError where
  | configurationError (endpoint : String)
  | missingCredentials
  | notConnected
  | missingRequiredParameter (alternatives : List String)
  | remoteAPIError (method : String) (url : String) (code : JVal) (error : JVal)
  | typeError (what : String)
  | keyError (key : String)

/-- `d[k]` lookup: first entry with key `k` (keys are unique in a dict). -/
def dictGet (d : JObj) (k : String) : Option JVal :=
  match d with
  | [] => none
  | (k', v) :: rest => if k' = k then some v else dictGet rest k

/-- `d[k] = v` assignment: replace the value in place if the key is present,
append otherwise — exactly Python dict assignment. -/
def dictSet (d : JObj) (k : String) (v : JVal) : JObj :=
  match d with
  | [] => [(k, v)]
  | (k', v') :: rest => if k' = k then (k, v) :: rest else (k', v') :: dictSet rest k v

/-- `d.update(kw)`: assign every entry of `kw` into `d`, left to right. -/
def dictUpdate (d kw : JObj) : JObj :=
  kw.foldl (fun acc e => dictSet acc e.1 e.2) d

/-- The keys of a dict. -/
def dictKeys (d : JObj) : List String := d.map Prod.fst

/-- Python truthiness of a JSON value (`if params.get('path'):`). -/
def pyTruthy : JVal → Bool
  | .null => false
  | .bool b => b
  | .num n => n ≠ 0
  | .str s => s ≠ ""
  | .arr xs => ¬ xs.isEmpty

/-- Python truthiness of an optional token string (`if not self.token`):
falsy when absent (`None`) or empty. -/
def tokenFalsy : Option String → Bool
  | none => true
  | some s => s = ""

/-- The token as a JSON value, for `params['auth'] = self.token`. -/
def tokenVal : Option String → JVal
  | none => .null
  | some s => .str s

/-- Python `x != 0` on a JSON value, negated (`False == 0` holds in Python). -/
def pyEqZero : JVal → Bool
  | .num n => n = 0
  | .bool b => b = false
  | _ => false

/-- `'not found' in error`: substring containment on strings. -/
def strContainsSub (hay needle : String) : Bool :=
  (List.range (hay.toList.length + 1)).any
    (fun i => (hay.toList.drop i).take needle.toList.length = needle.toList)

/-- `s.startswith(pre)` on Python strings, embedded at the character level:
the first `len(pre)` characters of `s` are exactly `pre`. -/
def pyStartsWith (s pre : String) : Bool :=
  s.toList.take pre.toList.length = pre.toList

/-- `PyCloudAsync._fix_path`:
`if not path.startswith("/"): path = "/" + path; return path`. -/
def fix_path (path : String) : String :=
  if ¬ pyStartsWith path "/" then "/" ++ path else path

/-- The client object: its token, the selected base URL, and the session
handle (`None` until `connect`). -/
structure Client where
  token : Option String
  endpoint : String
  session : Option Unit

/-- `PyCloudAsync.endpoints`: the two known endpoint names and base URLs. -/
def endpoints : List (String × String) :=
  [("api", "https://api.pcloud.com/"), ("eapi", "https://eapi.pcloud.com/")]

/-- `PyCloudAsync.__init__`: reject an unknown endpoint name, otherwise bind
the client to the endpoint's base URL, with no session yet. -/
def init (token : Option String) (endpoint : String) : Except PError Client :=
  match endpoints.find? (fun kv => kv.1 = endpoint) with
  | none => .error (.configurationError endpoint)
  | some kv => .ok ⟨token, kv.2, none⟩

/-- `PyCloudAsync.connect`: allocate the session. -/
def connect (c : Client) : Client := { c with session := some () }

/-- `PyCloudAsync.disconnect`: `if not self.session: return`, else close the
session and clear it. -/
def disconnect (c : Client) : Client :=
  if c.session.isNone then c else { c with session := none }

/-- The arguments a call hands to `_do_request` (the route and HTTP method are
passed separately): the explicit `params` dict, the extra keyword arguments
`kwargs`, the `auth` flag, the request body `data`, and `not_found_ok`. -/
structure ReqArgs where
  params : JObj
  kwargs : JObj
  auth : Bool
  data : Option String
  notFoundOk : Bool

/-- Plain authenticated call with no parameters: the defaults of
`_do_request` (`auth=True, data=None, params={}, not_found_ok=False`). -/
def noArgs : ReqArgs := ⟨[], [], true, none, false⟩

/-- The path-normalization step of `_do_request`:
`if params.get('path'): params['path'] = self._fix_path(params['path'])`.
A truthy non-string value would hit `.startswith` and raise a `TypeError`. -/
def fixPathStage (p : JObj) : Except PError JObj :=
  match dictGet p "path" with
  | some v =>
    if pyTruthy v then
      match v with
      | .str s => .ok (dictSet p "path" (.str (fix_path s)))
      | _ => .error (.typeError "path")
    else .ok p
  | none => .ok p

/-- Parameter assembly of `_do_request`: `params.update(kwargs)`, then
`if auth: params['auth'] = self.token`, then path normalization. -/
def assemble_params (token : Option String) (auth : Bool) (params kwargs : JObj) :
    Except PError JObj :=
  let p1 := dictUpdate params kwargs
  let p2 := if auth then dictSet p1 "auth" (tokenVal token) else p1
  fixPathStage p2

/-- Result interpretation of `_do_request` on the parsed response:
`result == 0` returns the whole payload; nonzero reads the error text
(default `'Unknown error'`), substitutes an empty payload when
`not_found_ok` and the text contains `'not found'`, and otherwise fails
with the method, route, result code and error. -/
def interpret_response (method url : String) (notFoundOk : Bool) (resp : JObj) :
    Except PError JObj :=
  match dictGet resp "result" with
  | none => .error (.keyError "result")
  | some rv =>
    if pyEqZero rv then .ok resp
    else
      match (dictGet resp "error").getD (.str "Unknown error") with
      | .str e =>
        if notFoundOk ∧ strContainsSub e "not found" then .ok []
        else .error (.remoteAPIError method url rv (.str e))
      | other =>
        if notFoundOk then .error (.typeError "in")
        else .error (.remoteAPIError method url rv other)

/-- `PyCloudAsync._do_request`, with the remote response `resp` supplied
explicitly: credentials check, connection check, parameter assembly, then
result interpretation of the response. -/
def do_request (c : Client) (url method : String) (a : ReqArgs) (resp : JObj) :
    Except PError JObj :=
  if tokenFalsy c.token ∧ a.auth then .error .missingCredentials
  else if c.session.isNone then .error .notConnected
  else
    match assemble_params c.token a.auth a.params a.kwargs with
    | .error e => .error e
    | .ok _sent => interpret_response method url a.notFoundOk resp

/-- The keys an operation's keyword arguments expose to the decorator: the
flattened extra keyword arguments, the keys of a nested `params` dict, and
`data` when a request body is passed as a keyword argument. -/
def suppliedKeys (a : ReqArgs) : List String :=
  dictKeys a.kwargs ++ dictKeys a.params ++ (if a.data.isSome then ["data"] else [])

/-- Modelled from the spec: `RequiredParameterCheck` lives in
`async_pcloud/validate.py`, which is not among the provided source files; per
the spec (§4.3 ParameterValidator), given the alternative required-parameter
names and the keyword arguments supplied to an operation, succeed if at least
one alternative is present among the supplied keys (including inside a nested
"params" mapping), otherwise fail with a missing-required-parameter condition
naming the accepted alternatives, before any request is attempted. -/
def requiredParameterCheck (alternatives : List String) (a : ReqArgs) :
    Except PError Unit :=
  if alternatives.any (fun alt => (suppliedKeys a).contains alt) then .ok ()
  else .error (.missingRequiredParameter alternatives)

/-- `PyCloudAsync.listfolder`: required-parameter check for `path`/`folderid`,
then `_do_request("listfolder", **kwargs)`. -/
def listfolder (c : Client) (a : ReqArgs) (resp : JObj) : Except PError JObj :=
  match requiredParameterCheck ["path", "folderid"] a with
  | .error e => .error e
  | .ok _ => do_request c "listfolder" "GET" a resp

/-- `PyCloudAsync.stat`: `_do_request("stat", **kwargs)`. -/
def stat (c : Client) (a : ReqArgs) (resp : JObj) : Except PError JObj :=
  do_request c "stat" "GET" a resp

/-- `PyCloudAsync.getfilelink`: required-parameter check for `path`/`fileid`,
`_do_request("getfilelink", **kwargs)`, `''` on an empty payload, otherwise
`'https://' + file_url['hosts'][0] + file_url['path']` (a missing key raises
`KeyError`, an empty hosts list raises `IndexError`, modelled as errors). -/
def getfilelink (c : Client) (a : ReqArgs) (resp : JObj) : Except PError String :=
  match requiredParameterCheck ["path", "fileid"] a with
  | .error e => .error e
  | .ok _ =>
    match do_request c "getfilelink" "GET" a resp with
    | .error e => .error e
    | .ok file_url =>
      if file_url.isEmpty then .ok ""
      else
        match dictGet file_url "hosts" with
        | none => .error (.keyError "hosts")
        | some hostsVal =>
          match hostsVal with
          | .arr [] => .error (.typeError "hosts[0]")
          | .arr (h0 :: _) =>
            match h0, dictGet file_url "path" with
            | .str h, some (.str p) => .ok ("https://" ++ h ++ p)
            | _, none => .error (.keyError "path")
            | _, _ => .error (.typeError "+")
          | _ => .error (.typeError "hosts[0]")

/-- `PyCloudAsync.uploadfile`: required-parameter check for `files`/`data`,
`await self._do_request("uploadfile", method="POST", **kwargs)` — and no
`return`, so the Python coroutine returns `None` on success. -/
def uploadfile (c : Client) (a : ReqArgs) (resp : JObj) :
    Except PError (Option JObj) :=
  match requiredParameterCheck ["files", "data"] a with
  | .error e => .error e
  | .ok _ =>
    match do_request c "uploadfile" "POST" a resp with
    | .error e => .error e
    | .ok _ => .ok none

/-! ## The mutable-state view of `_do_request`

In the source, `_do_request`'s `params` argument has the mutable default
`params: dict={}`: one dict object shared by every call that omits `params`.
`params.update(kwargs)`, `params['auth'] = ...` and `params['path'] = ...`
mutate that object in place.  `PipelineState` carries the default dict's
current contents, and `do_request_mut` threads it explicitly. -/

structure PipelineState where
  client : Client
  defaultParams : JObj

/-- `_do_request` with the parameter-dict object made explicit: the dict
that `params.update(kwargs)`, `params['auth'] = ...` and
`params['path'] = ...` mutate in place is the caller's dict when one was
passed and the shared default dict otherwise.  The call returns the new
pipeline state (the shared default's contents persist in it when the caller
omitted `params`), the final contents of the mutated dict object — the
value the caller's dict holds after the call — and the call's outcome.  The
precondition failures raise before any mutation; a path `TypeError` raises
after the update and auth writes. -/
def do_request_mut (s : PipelineState) (url method : String) (auth : Bool)
    (explicitParams : Option JObj) (kwargs : JObj) (notFoundOk : Bool)
    (resp : JObj) : PipelineState × JObj × Except PError JObj :=
  if tokenFalsy s.client.token ∧ auth then
    (s, explicitParams.getD s.defaultParams, .error .missingCredentials)
  else if s.client.session.isNone then
    (s, explicitParams.getD s.defaultParams, .error .notConnected)
  else
    let base := explicitParams.getD s.defaultParams
    let p1 := dictUpdate base kwargs
    let p2 := if auth then dictSet p1 "auth" (tokenVal s.client.token) else p1
    match fixPathStage p2 with
    | .error e =>
      (if explicitParams.isNone then { s with defaultParams := p2 } else s,
       p2, .error e)
    | .ok p3 =>
      (if explicitParams.isNone then { s with defaultParams := p3 } else s,
       p3, interpret_response method url notFoundOk resp)

/-! ## Dictionary lemmas -/

theorem dictGet_dictSet (d : JObj) (k q : String) (v : JVal) :
    dictGet (dictSet d k v) q = if k = q then some v else dictGet d q := by
  induction d with
  | nil =>
    by_cases h : k = q <;> simp [dictSet, dictGet, h]
  | cons e rest ih =>
    obtain ⟨k0, v0⟩ := e
    by_cases h0 : k0 = k
    · subst h0
      by_cases h1 : k0 = q <;> simp [dictSet, dictGet, h1]
    · by_cases h1 : k0 = q
      · subst h1
        have hk : ¬ k = k0 := fun hh => h0 hh.symm
        simp [dictSet, dictGet, h0, hk]
      · simp [dictSet, dictGet, h0, h1, ih]

theorem dictGet_eq_none_iff (d : JObj) (q : String) :
    dictGet d q = none ↔ q ∉ dictKeys d := by
  induction d with
  | nil => simp [dictGet, dictKeys]
  | cons e rest ih =>
    obtain ⟨k0, v0⟩ := e
    by_cases h0 : k0 = q
    · subst h0
      simp [dictGet, dictKeys]
    · have h0' : ¬ q = k0 := fun hh => h0 hh.symm
      simp [dictGet, dictKeys, h0, h0', ih]

theorem dictUpdate_cons (d : JObj) (k : String) (v : JVal) (rest : JObj) :
    dictUpdate d ((k, v) :: rest) = dictUpdate (dictSet d k v) rest := rfl

theorem dictGet_dictUpdate_none (d kw : JObj) (q : String)
    (h : dictGet kw q = none) :
    dictGet (dictUpdate d kw) q = dictGet d q := by
  induction kw generalizing d with
  | nil => rfl
  | cons e rest ih =>
    obtain ⟨k0, v0⟩ := e
    rw [dictUpdate_cons]
    have h0 : ¬ k0 = q := by
      intro hk; rw [dictGet, if_pos hk] at h; exact Option.noConfusion h
    rw [dictGet, if_neg h0] at h
    rw [ih (dictSet d k0 v0) h, dictGet_dictSet, if_neg h0]

theorem dictGet_dictUpdate_some (d kw : JObj) (q : String) (v : JVal)
    (hnd : (dictKeys kw).Nodup) (h : dictGet kw q = some v) :
    dictGet (dictUpdate d kw) q = some v := by
  induction kw generalizing d with
  | nil => exact Option.noConfusion h
  | cons e rest ih =>
    obtain ⟨k0, v0⟩ := e
    rw [dictUpdate_cons]
    rw [dictKeys] at hnd
    simp only [List.map_cons, List.nodup_cons] at hnd
    by_cases h0 : k0 = q
    · subst h0
      rw [dictGet, if_pos rfl] at h
      have hrest : dictGet rest k0 = none :=
        (dictGet_eq_none_iff rest k0).mpr hnd.1
      rw [dictGet_dictUpdate_none (dictSet d k0 v0) rest k0 hrest,
        dictGet_dictSet, if_pos rfl, h]
    · rw [dictGet, if_neg h0] at h
      exact ih (dictSet d k0 v0) hnd.2 h

theorem dictGet_fixPathStage (p r : JObj) (k : String) (hk : k ≠ "path")
    (h : fixPathStage p = .ok r) : dictGet r k = dictGet p k := by
  unfold fixPathStage at h
  rcases hp : dictGet p "path" with _ | v
  · rw [hp] at h
    exact congrArg (fun o => dictGet o k) (Except.ok.inj h).symm
  · rw [hp] at h
    by_cases ht : pyTruthy v
    · rcases v with _ | b | n | s | xs <;> simp [ht] at h
      rw [← h, dictGet_dictSet, if_neg (fun hh => hk hh.symm)]
    · simp [ht] at h
      exact congrArg (fun o => dictGet o k) h.symm

theorem fixPathStage_no_path (p : JObj) (h : dictGet p "path" = none) :
    fixPathStage p = .ok p := by
  unfold fixPathStage
  rw [h]

theorem fixPathStage_str_path (p : JObj) (ps : String)
    (h : dictGet p "path" = some (.str ps)) (hps : ps ≠ "") :
    fixPathStage p = .ok (dictSet p "path" (.str (fix_path ps))) := by
  unfold fixPathStage
  rw [h]
  have ht : pyTruthy (.str ps) = true := by simp [pyTruthy, hps]
  simp only [ht, if_true]

/-! ## Path-normalization lemmas -/

theorem pyStartsWith_slash_append (s : String) :
    pyStartsWith ("/" ++ s) "/" = true := by
  have hd : ("/" ++ s).toList = '/' :: s.toList := by
    show ("/" ++ s).data = '/' :: s.data
    rw [String.data_append]
    rfl
  simp [pyStartsWith, hd]

theorem fix_path_startsWith (s : String) : pyStartsWith (fix_path s) "/" = true := by
  unfold fix_path
  by_cases h : pyStartsWith s "/"
  · simp [h]
  · simp [h, pyStartsWith_slash_append]

theorem fix_path_of_startsWith (s : String) (h : pyStartsWith s "/" = true) :
    fix_path s = s := by
  simp [fix_path, h]

theorem fix_path_idem (s : String) : fix_path (fix_path s) = fix_path s :=
  fix_path_of_startsWith _ (fix_path_startsWith s)

theorem fix_path_ne_empty (s : String) : fix_path s ≠ "" := by
  unfold fix_path
  by_cases h : pyStartsWith s "/"
  · rw [if_neg (fun hn => hn h)]
    intro hs
    rw [hs] at h
    exact absurd h (by decide)
  · rw [if_pos h]
    intro hs
    have hd : ("/" ++ s).data = '/' :: s.data := by
      rw [String.data_append]
      rfl
    rw [hs] at hd
    exact List.noConfusion hd

/-! ## Pipeline lemmas -/

/-- With the credential and connection checks passed and the parameters
assembled, `_do_request` is the result interpretation of the response. -/
theorem do_request_eq_interpret (c : Client) (url method : String) (a : ReqArgs)
    (resp sent : JObj)
    (htok : ¬ (tokenFalsy c.token ∧ a.auth))
    (hsess : c.session = some ())
    (hasm : assemble_params c.token a.auth a.params a.kwargs = .ok sent) :
    do_request c url method a resp = interpret_response method url a.notFoundOk resp := by
  unfold do_request
  rw [if_neg htok, hsess]
  simp only [Option.isNone_some, Bool.false_eq_true, if_false, hasm]

/-- A zero result code returns the whole parsed payload. -/
theorem interpret_response_zero (method url : String) (nfo : Bool) (resp : JObj)
    (h : dictGet resp "result" = some (.num 0)) :
    interpret_response method url nfo resp = .ok resp := by
  unfold interpret_response
  rw [h]
  simp [pyEqZero]

/-- A nonzero result code with a string error either substitutes an empty
payload (tolerant mode with a matching error text) or fails with the method,
route, code and error. -/
theorem interpret_response_nonzero (method url : String) (nfo : Bool) (resp : JObj)
    (r : Int) (e : String) (hr : dictGet resp "result" = some (.num r)) (hr0 : r ≠ 0)
    (he : dictGet resp "error" = some (.str e)) :
    interpret_response method url nfo resp =
      if nfo ∧ strContainsSub e "not found" then .ok []
      else .error (.remoteAPIError method url (.num r) (.str e)) := by
  unfold interpret_response
  rw [hr, he]
  have h0 : pyEqZero (.num r) = false := by simp [pyEqZero, hr0]
  simp only [h0, Bool.false_eq_true, if_false, Option.getD_some]

/-! ## Claim theorems -/

/-- **C6.** Constructing a client with an endpoint name other than the two
known endpoints `"api"` and `"eapi"` fails immediately with a configuration
error; either known name succeeds and binds the client to the corresponding
fixed base URL. -/
theorem C6_endpoint_selection (token : Option String) (name : String)
    (h1 : name ≠ "api") (h2 : name ≠ "eapi") :
    init token "api" = .ok ⟨token, "https://api.pcloud.com/", none⟩
    ∧ init token "eapi" = .ok ⟨token, "https://eapi.pcloud.com/", none⟩
    ∧ init token name = .error (.configurationError name) := by
  refine ⟨rfl, rfl, ?_⟩
  have g1 : ¬ ("api" = name) := fun hh => h1 hh.symm
  have g2 : ¬ ("eapi" = name) := fun hh => h2 hh.symm
  simp [init, endpoints, List.find?, g1, g2]

/-- Witness for C6 at the endpoint names `"api"`, `"eapi"` and `"bogus"`. -/
theorem C6_endpoint_selection_witness :
    ("bogus" : String) ≠ "api" ∧ ("bogus" : String) ≠ "eapi"
    ∧ init (some "T") "api" = .ok ⟨some "T", "https://api.pcloud.com/", none⟩
    ∧ init (some "T") "eapi" = .ok ⟨some "T", "https://eapi.pcloud.com/", none⟩
    ∧ init (some "T") "bogus" = .error (.configurationError "bogus") := by
  have h := C6_endpoint_selection (some "T") "bogus" (by decide) (by decide)
  exact ⟨by decide, by decide, h.1, h.2.1, h.2.2⟩

/-- **C4 is refuted at the empty string**: `params.get('path')` is a Python
truthiness test, so a supplied `"path"` value of `""` is left untouched by the
pipeline and the value sent does not begin with a separator. -/
theorem C4_path_normalization_counterexample :
    assemble_params (some "T") false [("path", JVal.str "")] []
      = .ok [("path", JVal.str "")]
    ∧ pyStartsWith "" "/" = false := ⟨rfl, rfl⟩

/-- **C4 (amended).** Every *non-empty* string value under a `"path"`
parameter is sent with a leading separator: a value without a leading `"/"`
gets one prepended, a value that already begins with `"/"` is left unchanged,
and the normalization is idempotent; the empty string is exempt. -/
theorem C4_path_normalization (token : Option String) (auth : Bool)
    (params kwargs out : JObj) (s : String) (hs : s ≠ "")
    (hmid : dictGet (if auth then dictSet (dictUpdate params kwargs) "auth" (tokenVal token)
        else dictUpdate params kwargs) "path" = some (.str s))
    (hout : assemble_params token auth params kwargs = .ok out) :
    dictGet out "path" = some (.str (fix_path s))
    ∧ pyStartsWith (fix_path s) "/" = true
    ∧ fix_path (fix_path s) = fix_path s
    ∧ (pyStartsWith s "/" = true → fix_path s = s) := by
  refine ⟨?_, fix_path_startsWith s, fix_path_idem s, fix_path_of_startsWith s⟩
  simp only [assemble_params] at hout
  unfold fixPathStage at hout
  rw [hmid] at hout
  have ht : pyTruthy (.str s) = true := by simp [pyTruthy, hs]
  simp only [ht, if_true, Except.ok.injEq] at hout
  rw [← hout, dictGet_dictSet, if_pos rfl]

/-- Witness for C4 (amended) at the path value `"folder/file.txt"`. -/
theorem C4_path_normalization_witness :
    ("folder/file.txt" : String) ≠ ""
    ∧ assemble_params (some "T") true [] [("path", JVal.str "folder/file.txt")]
      = .ok [("path", JVal.str "/folder/file.txt"), ("auth", JVal.str "T")]
    ∧ dictGet [("path", JVal.str "/folder/file.txt"), ("auth", JVal.str "T")] "path"
      = some (JVal.str (fix_path "folder/file.txt"))
    ∧ pyStartsWith (fix_path "folder/file.txt") "/" = true
    ∧ fix_path (fix_path "folder/file.txt") = fix_path "folder/file.txt" := by
  have h := C4_path_normalization (some "T") true []
    [("path", JVal.str "folder/file.txt")]
    [("path", JVal.str "/folder/file.txt"), ("auth", JVal.str "T")]
    "folder/file.txt" (by decide) rfl rfl
  exact ⟨by decide, rfl, h.1, h.2.1, h.2.2.1⟩

/-- **C1.** For every call through the pipeline whose response has a nonzero
result: with not-found tolerance enabled and an error text containing
`"not found"` the call returns an empty payload as a successful result;
otherwise it fails with an error carrying the route, the HTTP method, the
numeric result code, and the error text. -/
theorem C1_nonzero_result_handling (c : Client) (url method : String) (a : ReqArgs)
    (resp sent : JObj) (r : Int) (e : String)
    (htok : ¬ (tokenFalsy c.token ∧ a.auth))
    (hsess : c.session = some ())
    (hasm : assemble_params c.token a.auth a.params a.kwargs = .ok sent)
    (hr : dictGet resp "result" = some (.num r)) (hr0 : r ≠ 0)
    (he : dictGet resp "error" = some (.str e)) :
    do_request c url method a resp =
      if a.notFoundOk ∧ strContainsSub e "not found" then .ok []
      else .error (.remoteAPIError method url (.num r) (.str e)) :=
  (do_request_eq_interpret c url method a resp sent htok hsess hasm).trans
    (interpret_response_nonzero method url a.notFoundOk resp r e hr hr0 he)

/-- Witness for C1 at the spec's scenarios B and C: a stat call answered with
`{"result": 2009, "error": "File not found"}`, with and without tolerance. -/
theorem C1_nonzero_result_handling_witness :
    ((2009 : Int) ≠ 0)
    ∧ strContainsSub "File not found" "not found" = true
    ∧ do_request ⟨some "T", "https://eapi.pcloud.com/", some ()⟩ "stat" "GET"
        ⟨[], [], true, none, true⟩
        [("result", JVal.num 2009), ("error", JVal.str "File not found")] = .ok []
    ∧ do_request ⟨some "T", "https://eapi.pcloud.com/", some ()⟩ "stat" "GET"
        ⟨[], [], true, none, false⟩
        [("result", JVal.num 2009), ("error", JVal.str "File not found")]
      = .error (.remoteAPIError "GET" "stat" (JVal.num 2009)
          (JVal.str "File not found")) := by
  have h1 := C1_nonzero_result_handling ⟨some "T", "https://eapi.pcloud.com/", some ()⟩
    "stat" "GET" ⟨[], [], true, none, true⟩
    [("result", JVal.num 2009), ("error", JVal.str "File not found")]
    [("auth", JVal.str "T")] 2009 "File not found" (by decide) rfl rfl rfl (by decide) rfl
  have h2 := C1_nonzero_result_handling ⟨some "T", "https://eapi.pcloud.com/", some ()⟩
    "stat" "GET" ⟨[], [], true, none, false⟩
    [("result", JVal.num 2009), ("error", JVal.str "File not found")]
    [("auth", JVal.str "T")] 2009 "File not found" (by decide) rfl rfl rfl (by decide) rfl
  exact ⟨by decide, by decide, h1.trans rfl, h2.trans rfl⟩

/-- **C2 is refuted as stated**: with no token set, invoking `listfolder`
with neither `path` nor `folderid` fails with the missing-required-parameter
error raised by the decorator, not with the missing-credentials error. -/
theorem C2_missing_credentials_counterexample :
    listfolder ⟨none, "https://eapi.pcloud.com/", some ()⟩ ⟨[], [], true, none, false⟩ []
      = .error (.missingRequiredParameter ["path", "folderid"])
    ∧ listfolder ⟨none, "https://eapi.pcloud.com/", some ()⟩ ⟨[], [], true, none, false⟩ []
      ≠ .error .missingCredentials := by
  refine ⟨rfl, fun h => ?_⟩
  have h2 : (Except.error (PError.missingRequiredParameter ["path", "folderid"])
      : Except PError JObj) = Except.error PError.missingCredentials := h
  exact PError.noConfusion (Except.error.inj h2)

/-- **C2 (amended).** Every call that reaches the shared pipeline requiring
authentication while the token is absent or empty fails with the
missing-credentials error, regardless of the other parameters and of the
response; in particular `listfolder` does so whenever its required-parameter
check passes. -/
theorem C2_missing_credentials (c : Client) (url method : String) (a : ReqArgs)
    (resp : JObj) (htok : tokenFalsy c.token = true) (hauth : a.auth = true) :
    do_request c url method a resp = .error .missingCredentials
    ∧ (requiredParameterCheck ["path", "folderid"] a = .ok () →
        listfolder c a resp = .error .missingCredentials) := by
  have key : ∀ u m : String, do_request c u m a resp = .error .missingCredentials := by
    intro u m
    unfold do_request
    rw [if_pos ⟨htok, hauth⟩]
  refine ⟨key url method, fun hv => ?_⟩
  unfold listfolder
  rw [hv]
  exact key "listfolder" "GET"

/-- Witness for C2 (amended) at an empty token, through the raw pipeline and
through `listfolder` called with a `folderid`. -/
theorem C2_missing_credentials_witness :
    tokenFalsy (some "") = true
    ∧ do_request ⟨some "", "https://eapi.pcloud.com/", some ()⟩ "userinfo" "GET"
        ⟨[], [], true, none, false⟩ [] = .error .missingCredentials
    ∧ listfolder ⟨some "", "https://eapi.pcloud.com/", some ()⟩
        ⟨[("folderid", JVal.num 0)], [], true, none, false⟩ []
      = .error .missingCredentials := by
  have h1 := C2_missing_credentials ⟨some "", "https://eapi.pcloud.com/", some ()⟩
    "userinfo" "GET" ⟨[], [], true, none, false⟩ [] (by decide) rfl
  have h2 := C2_missing_credentials ⟨some "", "https://eapi.pcloud.com/", some ()⟩
    "listfolder" "GET" ⟨[("folderid", JVal.num 0)], [], true, none, false⟩ []
    (by decide) rfl
  exact ⟨by decide, h1.1, h2.2 rfl⟩

/-- **C3 is refuted as stated**: an authenticated operation invoked before
`connect` on a client with no token fails with the missing-credentials error
(the token check precedes the session check), not with not-connected. -/
theorem C3_not_connected_counterexample :
    stat ⟨none, "https://eapi.pcloud.com/", none⟩ ⟨[], [], true, none, false⟩ []
      = .error .missingCredentials
    ∧ stat ⟨none, "https://eapi.pcloud.com/", none⟩ ⟨[], [], true, none, false⟩ []
      ≠ .error .notConnected := by
  refine ⟨rfl, fun h => ?_⟩
  have h2 : (Except.error PError.missingCredentials : Except PError JObj)
      = Except.error PError.notConnected := h
  exact PError.noConfusion (Except.error.inj h2)

/-- **C3 (amended).** Provided the credentials check does not fire first
(the operation is unauthenticated or a token is set), every call through the
pipeline without a live session — before `connect`, or after `connect` then
`disconnect` — fails with the not-connected error independently of the
response; and `disconnect` is a no-op without a session, hence safe to call
multiple times. -/
theorem C3_not_connected (c : Client) (url method : String) (a : ReqArgs)
    (resp : JObj)
    (hcred : tokenFalsy c.token = false ∨ a.auth = false)
    (hsess : c.session = none) :
    do_request c url method a resp = .error .notConnected
    ∧ (disconnect (connect c)).session = none
    ∧ do_request (disconnect (connect c)) url method a resp = .error .notConnected
    ∧ disconnect c = c
    ∧ disconnect (disconnect (connect c)) = disconnect (connect c) := by
  have key : ∀ c' : Client, c'.token = c.token → c'.session = none →
      do_request c' url method a resp = .error .notConnected := by
    intro c' ht hs
    unfold do_request
    have hno : ¬ (tokenFalsy c'.token ∧ a.auth) := by
      rw [ht]
      rcases hcred with h | h
      · rintro ⟨h1, _⟩
        rw [h] at h1
        exact Bool.false_ne_true h1
      · rintro ⟨_, h2⟩
        rw [h] at h2
        exact Bool.false_ne_true h2
    rw [if_neg hno, hs]
    rfl
  refine ⟨key c rfl hsess, rfl, key (disconnect (connect c)) rfl rfl, ?_, rfl⟩
  unfold disconnect
  rw [hsess]
  rfl

/-- Witness for C3 (amended) at a token-carrying client that never
connected. -/
theorem C3_not_connected_witness :
    tokenFalsy (some "T") = false
    ∧ (⟨some "T", "https://eapi.pcloud.com/", none⟩ : Client).session = none
    ∧ do_request ⟨some "T", "https://eapi.pcloud.com/", none⟩ "stat" "GET"
        ⟨[], [], true, none, false⟩ [] = .error .notConnected
    ∧ do_request (disconnect (connect ⟨some "T", "https://eapi.pcloud.com/", none⟩))
        "stat" "GET" ⟨[], [], true, none, false⟩ [] = .error .notConnected
    ∧ disconnect (⟨some "T", "https://eapi.pcloud.com/", none⟩ : Client)
      = ⟨some "T", "https://eapi.pcloud.com/", none⟩
    ∧ disconnect (disconnect (connect ⟨some "T", "https://eapi.pcloud.com/", none⟩))
      = disconnect (connect ⟨some "T", "https://eapi.pcloud.com/", none⟩) := by
  have h := C3_not_connected ⟨some "T", "https://eapi.pcloud.com/", none⟩ "stat" "GET"
    ⟨[], [], true, none, false⟩ [] (Or.inl (by decide)) rfl
  exact ⟨by decide, rfl, h.1, h.2.2.1, h.2.2.2.1, h.2.2.2.2⟩

/-- **C8 is refuted as stated**: `uploadfile` has no `return`, so on a
result-0 response it discards the parsed payload and returns `None`, even
though the pipeline produced a non-empty payload. -/
theorem C8_success_payload_counterexample :
    uploadfile ⟨some "T", "https://eapi.pcloud.com/", some ()⟩
        ⟨[("folderid", JVal.num 0)], [], true, some "FormData", false⟩
        [("result", JVal.num 0), ("metadata", JVal.str "m")]
      = .ok none
    ∧ do_request ⟨some "T", "https://eapi.pcloud.com/", some ()⟩ "uploadfile" "POST"
        ⟨[("folderid", JVal.num 0)], [], true, some "FormData", false⟩
        [("result", JVal.num 0), ("metadata", JVal.str "m")]
      = .ok [("result", JVal.num 0), ("metadata", JVal.str "m")]
    ∧ ([("result", JVal.num 0), ("metadata", JVal.str "m")] : JObj) ≠ [] :=
  ⟨rfl, rfl, fun h => List.noConfusion h⟩

/-- **C8 (amended).** Every call with a result-0 response either returns the
full parsed payload or raises one of the specified error kinds: the pipeline
itself and the payload-forwarding operations (e.g. `stat`) return the parsed
payload, but `uploadfile` discards it and returns nothing on success. -/
theorem C8_success_payload (c : Client) (url method : String) (a : ReqArgs)
    (resp sent : JObj)
    (htok : ¬ (tokenFalsy c.token ∧ a.auth)) (hsess : c.session = some ())
    (hasm : assemble_params c.token a.auth a.params a.kwargs = .ok sent)
    (hres : dictGet resp "result" = some (.num 0)) :
    do_request c url method a resp = .ok resp
    ∧ stat c a resp = .ok resp
    ∧ (requiredParameterCheck ["files", "data"] a = .ok () →
        uploadfile c a resp = .ok none) := by
  have key : ∀ u m : String, do_request c u m a resp = .ok resp := fun u m =>
    (do_request_eq_interpret c u m a resp sent htok hsess hasm).trans
      (interpret_response_zero m u a.notFoundOk resp hres)
  refine ⟨key url method, key "stat" "GET", fun hv => ?_⟩
  unfold uploadfile
  rw [hv, key "uploadfile" "POST"]

/-- Witness for C8 (amended) at a result-0 response with a payload. -/
theorem C8_success_payload_witness :
    do_request ⟨some "T", "https://eapi.pcloud.com/", some ()⟩ "userinfo" "GET"
        ⟨[("path", JVal.str "/a")], [], true, some "FD", false⟩
        [("result", JVal.num 0), ("x", JVal.num 1)]
      = .ok [("result", JVal.num 0), ("x", JVal.num 1)]
    ∧ stat ⟨some "T", "https://eapi.pcloud.com/", some ()⟩
        ⟨[("path", JVal.str "/a")], [], true, some "FD", false⟩
        [("result", JVal.num 0), ("x", JVal.num 1)]
      = .ok [("result", JVal.num 0), ("x", JVal.num 1)]
    ∧ uploadfile ⟨some "T", "https://eapi.pcloud.com/", some ()⟩
        ⟨[("path", JVal.str "/a")], [], true, some "FD", false⟩
        [("result", JVal.num 0), ("x", JVal.num 1)]
      = .ok none := by
  have h := C8_success_payload ⟨some "T", "https://eapi.pcloud.com/", some ()⟩
    "userinfo" "GET" ⟨[("path", JVal.str "/a")], [], true, some "FD", false⟩
    [("result", JVal.num 0), ("x", JVal.num 1)]
    [("path", JVal.str "/a"), ("auth", JVal.str "T")] (by decide) rfl rfl rfl
  exact ⟨h.1, h.2.1, h.2.2 rfl⟩

/-- **C5.** The final parameter mapping merges the caller-supplied dict and
the extra keyword parameters with the keyword parameters winning on
collision, and an authenticated call additionally carries the current token
under the fixed key `"auth"`. -/
theorem C5_parameter_merge (token : Option String) (auth : Bool)
    (params kwargs out : JObj) (q : String) (v : JVal)
    (hnd : (dictKeys kwargs).Nodup)
    (hout : assemble_params token auth params kwargs = .ok out) :
    (q ≠ "auth" → q ≠ "path" →
      (dictGet kwargs q = some v → dictGet out q = some v)
      ∧ (dictGet kwargs q = none → dictGet out q = dictGet params q))
    ∧ (auth = true → dictGet out "auth" = some (tokenVal token)) := by
  simp only [assemble_params] at hout
  constructor
  · intro hqa hqp
    have hbase : dictGet out q
        = dictGet (if auth then dictSet (dictUpdate params kwargs) "auth" (tokenVal token)
            else dictUpdate params kwargs) q :=
      dictGet_fixPathStage _ out q hqp hout
    constructor
    · intro hk
      rw [hbase]
      by_cases ha : auth
      · rw [if_pos ha, dictGet_dictSet, if_neg (fun hh => hqa hh.symm)]
        exact dictGet_dictUpdate_some params kwargs q v hnd hk
      · rw [if_neg ha]
        exact dictGet_dictUpdate_some params kwargs q v hnd hk
    · intro hk
      rw [hbase]
      by_cases ha : auth
      · rw [if_pos ha, dictGet_dictSet, if_neg (fun hh => hqa hh.symm)]
        exact dictGet_dictUpdate_none params kwargs q hk
      · rw [if_neg ha]
        exact dictGet_dictUpdate_none params kwargs q hk
  · intro ha
    have hbase : dictGet out "auth"
        = dictGet (if auth then dictSet (dictUpdate params kwargs) "auth" (tokenVal token)
            else dictUpdate params kwargs) "auth" :=
      dictGet_fixPathStage _ out "auth" (by decide) hout
    rw [hbase, if_pos ha, dictGet_dictSet, if_pos rfl]

/-- Witness for C5 at a colliding key `"x"` and an injected token. -/
theorem C5_parameter_merge_witness :
    (dictKeys [("x", JVal.str "b")]).Nodup
    ∧ assemble_params (some "TOK") true [("folderid", JVal.num 1), ("x", JVal.str "a")]
        [("x", JVal.str "b")]
      = .ok [("folderid", JVal.num 1), ("x", JVal.str "b"), ("auth", JVal.str "TOK")]
    ∧ dictGet [("folderid", JVal.num 1), ("x", JVal.str "b"), ("auth", JVal.str "TOK")] "x"
      = some (JVal.str "b")
    ∧ dictGet [("folderid", JVal.num 1), ("x", JVal.str "b"), ("auth", JVal.str "TOK")] "auth"
      = some (tokenVal (some "TOK")) := by
  have h := C5_parameter_merge (some "TOK") true
    [("folderid", JVal.num 1), ("x", JVal.str "a")] [("x", JVal.str "b")]
    [("folderid", JVal.num 1), ("x", JVal.str "b"), ("auth", JVal.str "TOK")]
    "x" (JVal.str "b") (by decide) rfl
  exact ⟨by decide, rfl, (h.1 (by decide) (by decide)).1 rfl, h.2 rfl⟩

/-- **C7.** (Validator modelled from the spec, `validate.py` being absent
from the sources.)  Supplying none of the required alternatives among the
supplied keys — flattened or inside the nested `params` mapping — fails with
a missing-required-parameter error naming the alternatives, before any
network activity (for any client state and response); supplying at least one
passes the check. -/
theorem C7_required_parameter_check (alternatives : List String) (a : ReqArgs)
    (c : Client) (resp : JObj) :
    (alternatives.any (fun alt => (suppliedKeys a).contains alt) = false →
      requiredParameterCheck alternatives a
        = .error (.missingRequiredParameter alternatives))
    ∧ (alternatives.any (fun alt => (suppliedKeys a).contains alt) = true →
      requiredParameterCheck alternatives a = .ok ())
    ∧ (["path", "folderid"].any (fun alt => (suppliedKeys a).contains alt) = false →
      listfolder c a resp = .error (.missingRequiredParameter ["path", "folderid"])) := by
  refine ⟨fun h => ?_, fun h => ?_, fun h => ?_⟩
  · simp only [requiredParameterCheck, h, Bool.false_eq_true, if_false]
  · simp only [requiredParameterCheck, h, if_true]
  · unfold listfolder
    have hv : requiredParameterCheck ["path", "folderid"] a
        = .error (.missingRequiredParameter ["path", "folderid"]) := by
      simp only [requiredParameterCheck, h, Bool.false_eq_true, if_false]
    rw [hv]

/-- Witness for C7: no alternative supplied (fails, even on a disconnected
client) and a `folderid` supplied inside the nested params dict (passes). -/
theorem C7_required_parameter_check_witness :
    (["path", "folderid"].any (fun alt =>
        (suppliedKeys ⟨[("x", JVal.num 1)], [], true, none, false⟩).contains alt) = false)
    ∧ requiredParameterCheck ["path", "folderid"]
        ⟨[("x", JVal.num 1)], [], true, none, false⟩
      = .error (.missingRequiredParameter ["path", "folderid"])
    ∧ listfolder ⟨none, "https://eapi.pcloud.com/", none⟩
        ⟨[("x", JVal.num 1)], [], true, none, false⟩ []
      = .error (.missingRequiredParameter ["path", "folderid"])
    ∧ requiredParameterCheck ["path", "folderid"]
        ⟨[("folderid", JVal.num 0)], [], true, none, false⟩ = .ok () := by
  have h1 := C7_required_parameter_check ["path", "folderid"]
    ⟨[("x", JVal.num 1)], [], true, none, false⟩
    ⟨none, "https://eapi.pcloud.com/", none⟩ []
  have h2 := C7_required_parameter_check ["path", "folderid"]
    ⟨[("folderid", JVal.num 0)], [], true, none, false⟩
    ⟨none, "https://eapi.pcloud.com/", none⟩ []
  exact ⟨by decide, h1.1 (by decide), h1.2.2 (by decide), h2.2.1 (by decide)⟩

/-- A dict with an entry is not empty. -/
theorem isEmpty_false_of_dictGet (d : JObj) (k : String) (v : JVal)
    (h : dictGet d k = some v) : d.isEmpty = false := by
  cases d with
  | nil => exact Option.noConfusion h
  | cons e rest => rfl

/-- **C9.** A successful file-link resolution whose response carries a
non-empty hosts list and a path returns `"https://"` followed by the first
host and then the path. -/
theorem C9_getfilelink (c : Client) (a : ReqArgs) (resp sent : JObj)
    (hh p : String) (rest : List JVal)
    (hval : requiredParameterCheck ["path", "fileid"] a = .ok ())
    (htok : ¬ (tokenFalsy c.token ∧ a.auth)) (hsess : c.session = some ())
    (hasm : assemble_params c.token a.auth a.params a.kwargs = .ok sent)
    (hres : dictGet resp "result" = some (.num 0))
    (hhosts : dictGet resp "hosts" = some (.arr (JVal.str hh :: rest)))
    (hpath : dictGet resp "path" = some (.str p)) :
    getfilelink c a resp = .ok ("https://" ++ hh ++ p) := by
  unfold getfilelink
  rw [hval]
  have hdr : do_request c "getfilelink" "GET" a resp = .ok resp :=
    (do_request_eq_interpret c "getfilelink" "GET" a resp sent htok hsess hasm).trans
      (interpret_response_zero "GET" "getfilelink" a.notFoundOk resp hres)
  rw [hdr]
  simp only [isEmpty_false_of_dictGet resp "hosts" _ hhosts, Bool.false_eq_true,
    if_false, hhosts, hpath]

/-- Witness for C9 at the spec's fixture: `fileid` 42 resolving against a
response with hosts `["c1.pcloud.com", "c2.pcloud.com"]` and path
`"/dl/report.pdf"`. -/
theorem C9_getfilelink_witness :
    requiredParameterCheck ["path", "fileid"]
      ⟨[("fileid", JVal.num 42)], [], true, none, false⟩ = .ok ()
    ∧ getfilelink ⟨some "T", "https://eapi.pcloud.com/", some ()⟩
        ⟨[("fileid", JVal.num 42)], [], true, none, false⟩
        [("result", JVal.num 0),
         ("hosts", JVal.arr [JVal.str "c1.pcloud.com", JVal.str "c2.pcloud.com"]),
         ("path", JVal.str "/dl/report.pdf")]
      = .ok "https://c1.pcloud.com/dl/report.pdf" := by
  have h := C9_getfilelink ⟨some "T", "https://eapi.pcloud.com/", some ()⟩
    ⟨[("fileid", JVal.num 42)], [], true, none, false⟩
    [("result", JVal.num 0),
     ("hosts", JVal.arr [JVal.str "c1.pcloud.com", JVal.str "c2.pcloud.com"]),
     ("path", JVal.str "/dl/report.pdf")]
    [("fileid", JVal.num 42), ("auth", JVal.str "T")]
    "c1.pcloud.com" "/dl/report.pdf" [JVal.str "c2.pcloud.com"]
    rfl (by decide) rfl rfl rfl rfl rfl
  exact ⟨rfl, h⟩

/-- A call through `do_request_mut` that passes the checks and whose
assembled dict survives the path stage: the final contents of the mutated
dict object are the assembled dict, and they persist in the shared default
exactly when the caller omitted `params`. -/
theorem do_request_mut_ok (s : PipelineState) (url method : String)
    (explicitParams : Option JObj) (kwargs : JObj) (nfo : Bool) (resp : JObj)
    (p3 : JObj)
    (htok : tokenFalsy s.client.token = false)
    (hsess : s.client.session = some ())
    (hfix : fixPathStage (dictSet (dictUpdate (explicitParams.getD s.defaultParams)
        kwargs) "auth" (tokenVal s.client.token)) = .ok p3) :
    do_request_mut s url method true explicitParams kwargs nfo resp
      = (if explicitParams.isNone then { s with defaultParams := p3 } else s,
         p3, interpret_response method url nfo resp) := by
  unfold do_request_mut
  have h1 : ¬ (tokenFalsy s.client.token ∧ (true : Bool)) := by
    rintro ⟨hh, _⟩
    rw [htok] at hh
    exact Bool.false_ne_true hh
  rw [if_neg h1, hsess]
  simp only [Option.isNone_some, Bool.false_eq_true, if_false, if_true, hfix]

/-- **C10.** The pipeline mutates the parameter dict object in place: a call
with an explicitly passed dict writes the merged keyword parameters, the
injected `"auth"` token and the normalized `"path"` into the very dict the
caller passed (its final contents are the assembled dict) while the shared
default dict stays untouched; and because `params` defaults to a single
shared mutable dict, the keys injected by a call made without an explicit
dict — auth token, merged keyword parameters, normalized path — persist in
the shared default into later calls that also omit it. -/
theorem C10_shared_default_dict (s : PipelineState) (d kwargs : JObj)
    (url1 method1 url2 method2 url3 method3 : String)
    (nfo1 nfo2 nfo3 : Bool) (resp1 resp2 resp3 : JObj)
    (q : String) (v : JVal) (ps pd : String)
    (htok : tokenFalsy s.client.token = false)
    (hsess : s.client.session = some ()) :
    (dictGet (dictSet (dictUpdate d kwargs) "auth" (tokenVal s.client.token)) "path"
        = some (.str ps) → ps ≠ "" →
      (do_request_mut s url1 method1 true (some d) kwargs nfo1 resp1).1 = s
      ∧ (do_request_mut s url1 method1 true (some d) kwargs nfo1 resp1).2.1
        = dictSet (dictSet (dictUpdate d kwargs) "auth" (tokenVal s.client.token))
            "path" (.str (fix_path ps))
      ∧ dictGet (do_request_mut s url1 method1 true (some d) kwargs nfo1 resp1).2.1
          "auth" = some (tokenVal s.client.token)
      ∧ dictGet (do_request_mut s url1 method1 true (some d) kwargs nfo1 resp1).2.1
          "path" = some (.str (fix_path ps))
      ∧ (dictGet kwargs q = some v → q ≠ "auth" → q ≠ "path" →
          (dictKeys kwargs).Nodup →
          dictGet (do_request_mut s url1 method1 true (some d) kwargs nfo1 resp1).2.1 q
            = some v))
    ∧ (dictGet (dictSet (dictUpdate s.defaultParams kwargs) "auth"
          (tokenVal s.client.token)) "path" = some (.str pd) → pd ≠ "" →
      dictGet (do_request_mut s url2 method2 true none kwargs nfo2
          resp2).1.defaultParams "auth" = some (tokenVal s.client.token)
      ∧ dictGet (do_request_mut s url2 method2 true none kwargs nfo2
          resp2).1.defaultParams "path" = some (.str (fix_path pd))
      ∧ (dictGet kwargs q = some v → q ≠ "auth" → q ≠ "path" →
          (dictKeys kwargs).Nodup →
          dictGet (do_request_mut s url2 method2 true none kwargs nfo2
            resp2).1.defaultParams q = some v)
      ∧ dictGet (do_request_mut
            (do_request_mut s url2 method2 true none kwargs nfo2 resp2).1
            url3 method3 true none [] nfo3 resp3).1.defaultParams "auth"
        = some (tokenVal s.client.token)
      ∧ dictGet (do_request_mut
            (do_request_mut s url2 method2 true none kwargs nfo2 resp2).1
            url3 method3 true none [] nfo3 resp3).1.defaultParams "path"
        = some (.str (fix_path pd))
      ∧ (dictGet kwargs q = some v → q ≠ "auth" → q ≠ "path" →
          (dictKeys kwargs).Nodup →
          dictGet (do_request_mut
            (do_request_mut s url2 method2 true none kwargs nfo2 resp2).1
            url3 method3 true none [] nfo3 resp3).1.defaultParams q = some v)) := by
  constructor
  · intro hpA hps
    have hfixA := fixPathStage_str_path
      (dictSet (dictUpdate d kwargs) "auth" (tokenVal s.client.token)) ps hpA hps
    have hcall := do_request_mut_ok s url1 method1 (some d) kwargs nfo1 resp1 _
      htok hsess hfixA
    rw [hcall]
    refine ⟨rfl, rfl, ?_, ?_, ?_⟩
    · show dictGet (dictSet (dictSet (dictUpdate d kwargs) "auth"
          (tokenVal s.client.token)) "path" (JVal.str (fix_path ps))) "auth"
        = some (tokenVal s.client.token)
      rw [dictGet_dictSet, if_neg (by decide), dictGet_dictSet, if_pos rfl]
    · show dictGet (dictSet (dictSet (dictUpdate d kwargs) "auth"
          (tokenVal s.client.token)) "path" (JVal.str (fix_path ps))) "path"
        = some (JVal.str (fix_path ps))
      rw [dictGet_dictSet, if_pos rfl]
    · intro hk hqa hqp hnd
      show dictGet (dictSet (dictSet (dictUpdate d kwargs) "auth"
          (tokenVal s.client.token)) "path" (JVal.str (fix_path ps))) q = some v
      rw [dictGet_dictSet, if_neg (fun hh => hqp hh.symm),
        dictGet_dictSet, if_neg (fun hh => hqa hh.symm)]
      exact dictGet_dictUpdate_some d kwargs q v hnd hk
  · intro hpB hpd
    have hfix1 := fixPathStage_str_path
      (dictSet (dictUpdate s.defaultParams kwargs) "auth" (tokenVal s.client.token))
      pd hpB hpd
    have hcall1 := do_request_mut_ok s url2 method2 none kwargs nfo2 resp2 _
      htok hsess hfix1
    have hD1 : (do_request_mut s url2 method2 true none kwargs nfo2 resp2).1
        = { s with defaultParams :=
              (dictSet (dictSet (dictUpdate s.defaultParams kwargs) "auth"
                (tokenVal s.client.token)) "path" (JVal.str (fix_path pd))) } := by
      rw [hcall1]
      rfl
    have hg1auth : dictGet (dictSet (dictSet (dictUpdate s.defaultParams kwargs)
        "auth" (tokenVal s.client.token)) "path" (JVal.str (fix_path pd))) "auth"
        = some (tokenVal s.client.token) := by
      rw [dictGet_dictSet, if_neg (by decide), dictGet_dictSet, if_pos rfl]
    have hg1path : dictGet (dictSet (dictSet (dictUpdate s.defaultParams kwargs)
        "auth" (tokenVal s.client.token)) "path" (JVal.str (fix_path pd))) "path"
        = some (JVal.str (fix_path pd)) := by
      rw [dictGet_dictSet, if_pos rfl]
    have hg1q : dictGet kwargs q = some v → q ≠ "auth" → q ≠ "path" →
        (dictKeys kwargs).Nodup →
        dictGet (dictSet (dictSet (dictUpdate s.defaultParams kwargs) "auth"
          (tokenVal s.client.token)) "path" (JVal.str (fix_path pd))) q = some v := by
      intro hk hqa hqp hnd
      rw [dictGet_dictSet, if_neg (fun hh => hqp hh.symm),
        dictGet_dictSet, if_neg (fun hh => hqa hh.symm)]
      exact dictGet_dictUpdate_some s.defaultParams kwargs q v hnd hk
    have hpath2 : dictGet (dictSet (dictUpdate ((none : Option JObj).getD
        ({ s with defaultParams :=
          (dictSet (dictSet (dictUpdate s.defaultParams kwargs) "auth"
            (tokenVal s.client.token)) "path" (JVal.str (fix_path pd))) }
          : PipelineState).defaultParams) []) "auth" (tokenVal s.client.token)) "path"
        = some (JVal.str (fix_path pd)) := by
      show dictGet (dictSet (dictSet (dictSet (dictUpdate s.defaultParams kwargs)
          "auth" (tokenVal s.client.token)) "path" (JVal.str (fix_path pd)))
          "auth" (tokenVal s.client.token)) "path" = some (JVal.str (fix_path pd))
      rw [dictGet_dictSet, if_neg (by decide)]
      exact hg1path
    have hfix2 := fixPathStage_str_path
      (dictSet (dictUpdate ((none : Option JObj).getD
        ({ s with defaultParams :=
          (dictSet (dictSet (dictUpdate s.defaultParams kwargs) "auth"
            (tokenVal s.client.token)) "path" (JVal.str (fix_path pd))) }
          : PipelineState).defaultParams) []) "auth" (tokenVal s.client.token))
      (fix_path pd) hpath2 (fix_path_ne_empty pd)
    rw [fix_path_idem] at hfix2
    have hcall2 := do_request_mut_ok
      { s with defaultParams :=
          (dictSet (dictSet (dictUpdate s.defaultParams kwargs) "auth"
            (tokenVal s.client.token)) "path" (JVal.str (fix_path pd))) }
      url3 method3 none [] nfo3 resp3 _ htok hsess hfix2
    have hD2 : (do_request_mut
        (do_request_mut s url2 method2 true none kwargs nfo2 resp2).1
        url3 method3 true none [] nfo3 resp3).1
        = { s with defaultParams :=
              (dictSet (dictSet (dictSet (dictSet (dictUpdate s.defaultParams kwargs)
                "auth" (tokenVal s.client.token)) "path" (JVal.str (fix_path pd)))
                "auth" (tokenVal s.client.token)) "path" (JVal.str (fix_path pd))) } := by
      rw [hD1, hcall2]
      rfl
    rw [hD2, hD1]
    refine ⟨hg1auth, hg1path, hg1q, ?_, ?_, ?_⟩
    · show dictGet (dictSet (dictSet (dictSet (dictSet (dictUpdate s.defaultParams
          kwargs) "auth" (tokenVal s.client.token)) "path" (JVal.str (fix_path pd)))
          "auth" (tokenVal s.client.token)) "path" (JVal.str (fix_path pd))) "auth"
        = some (tokenVal s.client.token)
      rw [dictGet_dictSet, if_neg (by decide), dictGet_dictSet, if_pos rfl]
    · show dictGet (dictSet (dictSet (dictSet (dictSet (dictUpdate s.defaultParams
          kwargs) "auth" (tokenVal s.client.token)) "path" (JVal.str (fix_path pd)))
          "auth" (tokenVal s.client.token)) "path" (JVal.str (fix_path pd))) "path"
        = some (JVal.str (fix_path pd))
      rw [dictGet_dictSet, if_pos rfl]
    · intro hk hqa hqp hnd
      show dictGet (dictSet (dictSet (dictSet (dictSet (dictUpdate s.defaultParams
          kwargs) "auth" (tokenVal s.client.token)) "path" (JVal.str (fix_path pd)))
          "auth" (tokenVal s.client.token)) "path" (JVal.str (fix_path pd))) q
        = some v
      rw [dictGet_dictSet, if_neg (fun hh => hqp hh.symm),
        dictGet_dictSet, if_neg (fun hh => hqa hh.symm)]
      exact hg1q hk hqa hqp hnd

/-- Witness for C10: a call passing an explicit dict gets the merged
`folderid`, the auth token and the normalized path written into that very
dict while the shared default stays empty; and after two parameterless
calls the shared default still holds the first call's `folderid`, token and
normalized path. -/
theorem C10_shared_default_dict_witness :
    (do_request_mut ⟨⟨some "TOK", "https://eapi.pcloud.com/", some ()⟩, []⟩
        "stat" "GET" true (some [("path", JVal.str "f.txt")])
        [("folderid", JVal.num 7), ("path", JVal.str "a.txt")] false []).1
      = ⟨⟨some "TOK", "https://eapi.pcloud.com/", some ()⟩, []⟩
    ∧ (do_request_mut ⟨⟨some "TOK", "https://eapi.pcloud.com/", some ()⟩, []⟩
        "stat" "GET" true (some [("path", JVal.str "f.txt")])
        [("folderid", JVal.num 7), ("path", JVal.str "a.txt")] false []).2.1
      = [("path", JVal.str "/a.txt"), ("folderid", JVal.num 7),
         ("auth", JVal.str "TOK")]
    ∧ dictGet (do_request_mut
        (do_request_mut ⟨⟨some "TOK", "https://eapi.pcloud.com/", some ()⟩, []⟩
          "listfolder" "GET" true none
          [("folderid", JVal.num 7), ("path", JVal.str "a.txt")] false []).1
        "userinfo" "GET" true none [] false []).1.defaultParams "auth"
      = some (JVal.str "TOK")
    ∧ dictGet (do_request_mut
        (do_request_mut ⟨⟨some "TOK", "https://eapi.pcloud.com/", some ()⟩, []⟩
          "listfolder" "GET" true none
          [("folderid", JVal.num 7), ("path", JVal.str "a.txt")] false []).1
        "userinfo" "GET" true none [] false []).1.defaultParams "path"
      = some (JVal.str "/a.txt")
    ∧ dictGet (do_request_mut
        (do_request_mut ⟨⟨some "TOK", "https://eapi.pcloud.com/", some ()⟩, []⟩
          "listfolder" "GET" true none
          [("folderid", JVal.num 7), ("path", JVal.str "a.txt")] false []).1
        "userinfo" "GET" true none [] false []).1.defaultParams "folderid"
      = some (JVal.num 7) := by
  have h := C10_shared_default_dict
    ⟨⟨some "TOK", "https://eapi.pcloud.com/", some ()⟩, []⟩
    [("path", JVal.str "f.txt")]
    [("folderid", JVal.num 7), ("path", JVal.str "a.txt")]
    "stat" "GET" "listfolder" "GET" "userinfo" "GET" false false false [] [] []
    "folderid" (JVal.num 7) "a.txt" "a.txt" (by decide) rfl
  have hA := h.1 rfl (by decide)
  have hB := h.2 rfl (by decide)
  exact ⟨hA.1, hA.2.1.trans rfl, hB.2.2.2.1, hB.2.2.2.2.1.trans rfl,
    hB.2.2.2.2.2 rfl (by decide) (by decide) (by decide)⟩

end AsyncPCloud
